import Mathlib

/-!
Shallow embedding of the Socomec JBUS UPS driver (src/drivers/socomec_jbus.c).

Registers are 16-bit values modelled as `Nat`; the C globals
(`DISCHARGING_FLAG : int`, `battery_charge_low : int`,
`sch_delay_off / sch_min_off / sch_scheduletype : uint16_t`) are threaded
explicitly.  Transport reads (`mrir`) are modelled by an
`Option (List Nat)`: `some regs` is a successful `modbus_read_registers`
filling the buffer, `none` is the `-1` failure that leaves the buffer at
the zero state it was pre-filled with.  Transport writes (`mwrs`) return
the libmodbus result, modelled as an `Int` parameter (number of registers
written on success, `-1` on failure).
-/

namespace Socomec

/-- `CHECK_BIT(var,pos)` from the source: `(var) & (1<<(pos))` as a truth value. -/
def checkBit (v : Nat) (pos : Nat) : Bool := v.testBit pos

/-- Read register `i` of a buffer; out-of-range reads see the zero fill. -/
def regAt (t : List Nat) (i : Nat) : Nat := t.getD i 0

/-- `mrir`: the destination buffer is zeroed first, so a failed
`modbus_read_registers` (the `none` case) leaves `nb` zero registers. -/
def mrirBuf (nb : Nat) (outcome : Option (List Nat)) : List Nat :=
  outcome.getD (List.replicate nb 0)

/-- Result of the status-window bit decode inside `upsdrv_updateinfo`
(lines 541-597): which `status_set` tokens were produced and the value of
`DISCHARGING_FLAG` afterwards. -/
structure StatusDecodeResult where
  ol : Bool
  off : Bool
  ob : Bool
  lb : Bool
  flag : Int
  deriving Repr, DecidableEq

/-- The status decode of `upsdrv_updateinfo` on status register 0
(`tab_reg[0]` after the 0x1020 read), mirroring the source order:
bit0 set and bit5 clear sets OL and clears the discharging flag;
bit1 clear sets OFF; bit10 and bit5 both set sets OL (battery test);
bit10 clear and bit5 set sets OB and the discharging flag; bit15 set
with `battery_charge_low == -1` sets LB. -/
def statusDecode (reg0 : Nat) (oldFlag : Int) (battery_charge_low : Int) :
    StatusDecodeResult :=
  let rule1 := checkBit reg0 0 && !checkBit reg0 5
  let flag1 : Int := if rule1 then 0 else oldFlag
  let offB := !checkBit reg0 1
  let rule3 := checkBit reg0 10 && checkBit reg0 5
  let rule4 := !checkBit reg0 10 && checkBit reg0 5
  let flag2 : Int := if rule4 then 1 else flag1
  let lbB := checkBit reg0 15 && battery_charge_low == -1
  { ol := rule1 || rule3, off := offB, ob := rule4, lb := lbB, flag := flag2 }

/-- The alarm-window decode (lines 645-739): each listed bit of the four
alarm registers contributes one `alarm_set` string, collected in source
order. -/
def alarmDecode (t : List Nat) : List String :=
  (if checkBit (regAt t 0) 0 then ["General Alarm present."] else []) ++
  (if checkBit (regAt t 0) 1 then ["Battery failure."] else []) ++
  (if checkBit (regAt t 0) 2 then ["Overload fault."] else []) ++
  (if checkBit (regAt t 0) 4 then ["Control failure (com, internal supply...)"] else []) ++
  (if checkBit (regAt t 0) 5 then ["Rectifier input supply out of tolerance."] else []) ++
  (if checkBit (regAt t 0) 6 then ["Bypass input supply out of tolerance."] else []) ++
  (if checkBit (regAt t 0) 7 then ["Over temperature fault."] else []) ++
  (if checkBit (regAt t 0) 8 then ["Maintenance bypass closed."] else []) ++
  (if checkBit (regAt t 0) 10 then ["Battery charger fault."] else []) ++
  (if checkBit (regAt t 1) 15 then ["Imminent STOP."] else []) ++
  (if checkBit (regAt t 2) 12 then ["Servicing alarm."] else []) ++
  (if checkBit (regAt t 3) 0 then ["Maintenance bypass."] else []) ++
  (if checkBit (regAt t 3) 1 then ["Battery discharged."] else []) ++
  (if checkBit (regAt t 3) 4 then ["Critical Rectifier fault."] else []) ++
  (if checkBit (regAt t 3) 6 then ["Critical Inverter fault."] else []) ++
  (if checkBit (regAt t 3) 11 then ["Battery circuit open."] else []) ++
  (if checkBit (regAt t 3) 14 then ["Bypass critical alarm."] else [])

/-- Sentinel guard used throughout the measurement decode: publish the raw
register value unless it is `0xFFFF`. -/
def sentinelGuard (v : Nat) : Option Nat :=
  if v == 0xFFFF then none else some v

/-- The fields published by the measurement decode (lines 752-814).
Scaled fields keep the integer arithmetic the source performs before
formatting (`tab_reg[5]/10`, `tab_reg[18]/10`, `tab_reg[19]/10`); fields
the source formats as `value/10.0` floats keep the raw register, recorded
as tenths. -/
structure MeasResult where
  phases : Nat
  upsLoad : Option Nat
  l1Load : Option Nat
  l2Load : Option Nat
  l3Load : Option Nat
  bypassVoltage : Option Nat
  bypassVoltageL1 : Option Nat
  bypassVoltageL2 : Option Nat
  bypassVoltageL3 : Option Nat
  outputVoltage : Option Nat
  outputVoltageL1 : Option Nat
  outputVoltageL2 : Option Nat
  outputVoltageL3 : Option Nat
  outputCurrent : Option Nat
  outputCurrentL1 : Option Nat
  outputCurrentL2 : Option Nat
  outputCurrentL3 : Option Nat
  batteryCharge : Option Nat
  batteryCapacity : Option Nat
  batteryVoltageTenths : Option Nat
  batteryCurrentTenths : Option Nat
  batteryRuntime : Option Nat
  bypassFrequency : Option Nat
  outputFrequency : Option Nat
  temperature : Option Nat
  deriving Repr, DecidableEq

/-- The measurement decode of `upsdrv_updateinfo` on the 48-register
0x1060 window: single-phase iff registers 1 and 2 are both `0xFFFF`;
in the three-phase branch load and voltages are published with no
sentinel guard while the per-line output currents keep the guard. -/
def measDecode (t : List Nat) : MeasResult :=
  if regAt t 1 == 0xFFFF && regAt t 2 == 0xFFFF then
    { phases := 1
      upsLoad := sentinelGuard (regAt t 0)
      l1Load := none, l2Load := none, l3Load := none
      bypassVoltage := sentinelGuard (regAt t 6)
      bypassVoltageL1 := none, bypassVoltageL2 := none, bypassVoltageL3 := none
      outputVoltage := sentinelGuard (regAt t 9)
      outputVoltageL1 := none, outputVoltageL2 := none, outputVoltageL3 := none
      outputCurrent := sentinelGuard (regAt t 15)
      outputCurrentL1 := none, outputCurrentL2 := none, outputCurrentL3 := none
      batteryCharge := sentinelGuard (regAt t 4)
      batteryCapacity := (sentinelGuard (regAt t 5)).map (· / 10)
      batteryVoltageTenths := sentinelGuard (regAt t 20)
      batteryCurrentTenths := sentinelGuard (regAt t 24)
      batteryRuntime := sentinelGuard (regAt t 23)
      bypassFrequency := (sentinelGuard (regAt t 18)).map (· / 10)
      outputFrequency := (sentinelGuard (regAt t 19)).map (· / 10)
      temperature := sentinelGuard (regAt t 22) }
  else
    { phases := 3
      upsLoad := some (regAt t 3)
      l1Load := some (regAt t 0), l2Load := some (regAt t 1), l3Load := some (regAt t 2)
      bypassVoltage := none
      bypassVoltageL1 := some (regAt t 6)
      bypassVoltageL2 := some (regAt t 7)
      bypassVoltageL3 := some (regAt t 8)
      outputVoltage := none
      outputVoltageL1 := some (regAt t 9)
      outputVoltageL2 := some (regAt t 10)
      outputVoltageL3 := some (regAt t 11)
      outputCurrent := none
      outputCurrentL1 := sentinelGuard (regAt t 15)
      outputCurrentL2 := sentinelGuard (regAt t 16)
      outputCurrentL3 := sentinelGuard (regAt t 17)
      batteryCharge := sentinelGuard (regAt t 4)
      batteryCapacity := (sentinelGuard (regAt t 5)).map (· / 10)
      batteryVoltageTenths := sentinelGuard (regAt t 20)
      batteryCurrentTenths := sentinelGuard (regAt t 24)
      batteryRuntime := sentinelGuard (regAt t 23)
      bypassFrequency := (sentinelGuard (regAt t 18)).map (· / 10)
      outputFrequency := (sentinelGuard (regAt t 19)).map (· / 10)
      temperature := sentinelGuard (regAt t 22) }

/-- Inputs of one `upsdrv_updateinfo` poll cycle: the outcome of each
transport read plus the cross-cycle globals it consults. -/
structure CycleInput where
  ups_model : Int
  configRead : Option (List Nat)
  timeRead : Option (List Nat)
  statusRead : Option (List Nat)
  alarmRead : Option (List Nat)
  measRead : Option (List Nat)
  oldFlag : Int
  battery_charge_low : Int
  deriving Repr

/-- Observable outcome of one `upsdrv_updateinfo` call.  `stale` is the
early `dstate_datastale(); return;` path; `committed` means the cycle
reached `alarm_commit`/`status_commit`/`dstate_dataok`.  `lb` is the final
LB status token: the bit-15 path (`lbBit`) or the threshold path
(`lbThr`). -/
structure CycleResult where
  stale : Bool
  committed : Bool
  ol : Bool
  off : Bool
  ob : Bool
  lbBit : Bool
  lbThr : Bool
  lb : Bool
  flag : Int
  alarms : List String
  meas : Option MeasResult
  deriving Repr

/-- One poll cycle (`upsdrv_updateinfo`, lines 443-844).  A failed 0x10E0
configuration read, or configuration register 0 equal to zero, goes stale
and returns at once; failed status / alarm / measurement reads only leave
their zero-filled buffers and the cycle continues to commit.  The status
window is 4 registers for model 30 (ITYS) and 6 otherwise; the
low-battery threshold comparison reads `DISCHARGING_FLAG` as just updated
by the status decode and compares measurement register 4 against
`battery_charge_low` as C ints. -/
def upsdrv_updateinfo (inp : CycleInput) : CycleResult :=
  match inp.configRead with
  | none =>
      { stale := true, committed := false, ol := false, off := false, ob := false,
        lbBit := false, lbThr := false, lb := false, flag := inp.oldFlag,
        alarms := [], meas := none }
  | some cfg =>
      if regAt cfg 0 == 0 then
        { stale := true, committed := false, ol := false, off := false, ob := false,
          lbBit := false, lbThr := false, lb := false, flag := inp.oldFlag,
          alarms := [], meas := none }
      else
        let sbuf := mrirBuf (if inp.ups_model == 30 then 4 else 6) inp.statusRead
        let sd := statusDecode (regAt sbuf 0) inp.oldFlag inp.battery_charge_low
        let abuf := mrirBuf 4 inp.alarmRead
        let mbuf := mrirBuf 48 inp.measRead
        let m := measDecode mbuf
        let lbThr := sd.flag == 1 &&
          decide ((regAt mbuf 4 : Int) < inp.battery_charge_low)
        { stale := false, committed := true, ol := sd.ol, off := sd.off,
          ob := sd.ob, lbBit := sd.lb, lbThr := lbThr, lb := sd.lb || lbThr,
          flag := sd.flag, alarms := alarmDecode abuf, meas := some m }

/-- Model code mapping of `upsdrv_initinfo` (lines 391-415): known codes
map to themselves, anything else defaults to 130. -/
def modelCode (c : Nat) : Int :=
  if c == 30 then 30
  else if c == 130 then 130
  else if c == 515 then 515
  else if c == 516 then 516
  else 130

/-- `upsdrv_initinfo` identity read (lines 377-415): a failed 12-register
read at 0x1000 is `fatalx` (modelled as `none`); on success the session
proceeds with the resolved `ups_model`. -/
def upsdrv_initinfo (idRead : Option (List Nat)) : Option Int :=
  match idRead with
  | none => none
  | some regs => some (modelCode (regAt regs 0))

/-- The three schedule globals (`sch_delay_off`, `sch_min_off`,
`sch_scheduletype`), each a `uint16_t` in the source. -/
structure ScheduleState where
  sch_delay_off : Nat
  sch_min_off : Nat
  sch_scheduletype : Nat
  deriving Repr, DecidableEq

/-- The 5-register shutdown-schedule block built by `load.off.delay`,
`shutdown.return` and `upsdrv_shutdown`: big-endian byte split of the
delay and of the standby minutes, then the schedule type. -/
def shutdownBlock (st : ScheduleState) : List Nat :=
  [(st.sch_delay_off &&& 0xFF00) >>> 8,
   st.sch_delay_off &&& 0x00FF,
   (st.sch_min_off &&& 0xFF00) >>> 8,
   st.sch_min_off &&& 0x00FF,
   st.sch_scheduletype]

/-- A register-block write issued to the transport. -/
structure WriteOp where
  addr : Nat
  vals : List Nat
  deriving Repr, DecidableEq

/-- `STAT_INSTCMD_*` results of `instcmd`. -/
inductive CmdResult where
  | handled
  | failed
  | unknown
  deriving Repr, DecidableEq

/-- ASCII case fold of one character, for `strcasecmp`. -/
def foldChar (c : Char) : Char :=
  if c.val ≥ 65 && c.val ≤ 90 then Char.ofNat (c.toNat + 32) else c

/-- `strcasecmp(a,b) == 0`. -/
def strcaseeq (a b : String) : Bool :=
  (a.data.map foldChar) == (b.data.map foldChar)

/-- One single-register control write at 0x15B0 with its `r != 1` check
(the shared shape of the seven simple `instcmd` branches and of
`shutdown.stayoff`). -/
def controlWrite (v : Nat) (wAck : Int) : CmdResult × Option WriteOp :=
  (if wAck != 1 then .failed else .handled, some ⟨0x15B0, [v]⟩)

/-- `instcmd` (lines 99-299): the command-name dispatch chain.  `wAck` is
what `mwrs` (i.e. `modbus_write_registers`) returned for the one write the
taken branch performs: the number of registers written on success, `-1` on
failure.  Every branch, including the two 5-register schedule writes,
returns `STAT_INSTCMD_HANDLED` iff `wAck == 1`. -/
def instcmd (cmdname : String) (st : ScheduleState) (wAck : Int) :
    CmdResult × Option WriteOp :=
  if strcaseeq cmdname "load.off" then controlWrite 0x05 wAck
  else if strcaseeq cmdname "load.on" then controlWrite 0x06 wAck
  else if strcaseeq cmdname "beeper.enable" then controlWrite 0x07 wAck
  else if strcaseeq cmdname "beeper.mute" then controlWrite 0x08 wAck
  else if strcaseeq cmdname "test.panel.start" then controlWrite 0x0D wAck
  else if strcaseeq cmdname "beeper.disable" then controlWrite 0x0E wAck
  else if strcaseeq cmdname "test.battery.start" then controlWrite 0x10 wAck
  else if strcaseeq cmdname "load.off.delay" then
    (if wAck != 1 then .failed else .handled, some ⟨0x1580, shutdownBlock st⟩)
  else if strcaseeq cmdname "shutdown.return" then
    (if wAck != 1 then .failed else .handled, some ⟨0x1580, shutdownBlock st⟩)
  else if strcaseeq cmdname "shutdown.stayoff" then controlWrite 0x05 wAck
  else (.unknown, none)

/-- `upsdrv_shutdown` (lines 848-874): writes the 5-register schedule
block at 0x1580; signals successful shutdown (`set_exit_flag(-2)`) iff the
write did not return `-1`. -/
def upsdrv_shutdown (st : ScheduleState) (wAck : Int) : Bool × WriteOp :=
  (wAck != -1, ⟨0x1580, shutdownBlock st⟩)

/-- `STAT_SET_*` results of `setvar`. -/
inductive SetResult where
  | handled
  | failed
  | unknown
  deriving Repr, DecidableEq

/-- The globals `setvar` can touch. -/
structure SetvarState where
  battery_charge_low : Int
  sch_delay_off : Nat
  sch_min_off : Nat
  deriving Repr, DecidableEq

/-- `setvar` (lines 303-342).  `v` is the `atoi(val)` of the incoming
string; `sinkAck` is the `dstate_setinfo` return consulted only by the
`ups.delay.start` branch.  Stores into the `uint16_t` globals reduce the
C int modulo 2^16.  `ups.delay.start` is gated on divisibility by 60 and
stores minutes. -/
def setvar (varname : String) (v : Int) (sinkAck : Int) (st : SetvarState) :
    SetResult × SetvarState :=
  if strcaseeq varname "battery.charge.low" then
    (.handled, { st with battery_charge_low := v })
  else if strcaseeq varname "ups.timer.shutdown" then
    (.handled, { st with sch_delay_off := (v % 65536).toNat })
  else if strcaseeq varname "ups.delay.start" then
    if v % 60 == 0 then
      let st1 := { st with sch_min_off := ((v / 60) % 65536).toNat }
      (if sinkAck != 1 then .failed else .handled, st1)
    else
      (.failed, st)
  else (.unknown, st)

/-! ## Helper lemmas -/

lemma tb65280 (j : Nat) : Nat.testBit 65280 (8 + j) = Nat.testBit 255 j := by
  have h := Nat.testBit_shiftRight (x := 65280) (i := 8) (j := j)
  rw [show (65280 : Nat) >>> 8 = 255 from rfl] at h
  exact h.symm

lemma and_ff00_shiftr (d : Nat) : (d &&& 0xFF00) >>> 8 = (d >>> 8) &&& 0xFF := by
  apply Nat.eq_of_testBit_eq
  intro j
  simp only [Nat.testBit_shiftRight, Nat.testBit_and, tb65280]

lemma msb_byte (d : Nat) (hd : d < 65536) : (d &&& 0xFF00) >>> 8 = d / 256 := by
  rw [and_ff00_shiftr]
  have h1 : d >>> 8 = d / 256 := by
    rw [Nat.shiftRight_eq_div_pow]
  have h2 := Nat.and_pow_two_sub_one_eq_mod (d >>> 8) 8
  rw [show (2 : Nat) ^ 8 - 1 = 0xFF from rfl, show (2 : Nat) ^ 8 = 256 from rfl] at h2
  rw [h2, h1]
  omega

lemma lsb_byte (d : Nat) : d &&& 0x00FF = d % 256 := by
  have h := Nat.and_pow_two_sub_one_eq_mod d 8
  rw [show (2 : Nat) ^ 8 - 1 = 0xFF from rfl, show (2 : Nat) ^ 8 = 256 from rfl] at h
  exact h

lemma regAt_replicate_zero (n i : Nat) : regAt (List.replicate n 0) i = 0 := by
  unfold regAt
  rcases h : (List.replicate (α := Nat) n 0).getD i 0 with _ | k
  · rfl
  · exfalso
    have := List.getD_eq_getElem?_getD (List.replicate (α := Nat) n 0) i 0
    rw [List.getElem?_replicate] at this
    rw [this] at h
    by_cases hi : i < n <;> simp [hi] at h

/-- Status register 0 as seen by a cycle: register 0 of the (possibly
zero-filled) family-length status buffer. -/
def statusReg0 (inp : CycleInput) : Nat :=
  regAt (mrirBuf (if inp.ups_model == 30 then 4 else 6) inp.statusRead) 0

/-- The status decode a cycle performs. -/
def cycleSD (inp : CycleInput) : StatusDecodeResult :=
  statusDecode (statusReg0 inp) inp.oldFlag inp.battery_charge_low

/-- The threshold low-battery comparison a cycle performs, reading the
discharging flag just produced by the status decode. -/
def cycleLbThr (inp : CycleInput) : Bool :=
  (cycleSD inp).flag == 1 &&
    decide ((regAt (mrirBuf 48 inp.measRead) 4 : Int) < inp.battery_charge_low)

/-- The committed branch of `upsdrv_updateinfo`, field by field. -/
lemma updateinfo_ok (inp : CycleInput) (cfg : List Nat)
    (hc : inp.configRead = some cfg) (h0 : ¬(regAt cfg 0 = 0)) :
    (upsdrv_updateinfo inp).stale = false ∧
    (upsdrv_updateinfo inp).committed = true ∧
    (upsdrv_updateinfo inp).ol = (cycleSD inp).ol ∧
    (upsdrv_updateinfo inp).off = (cycleSD inp).off ∧
    (upsdrv_updateinfo inp).ob = (cycleSD inp).ob ∧
    (upsdrv_updateinfo inp).lbBit = (cycleSD inp).lb ∧
    (upsdrv_updateinfo inp).lbThr = cycleLbThr inp ∧
    (upsdrv_updateinfo inp).lb = ((cycleSD inp).lb || cycleLbThr inp) ∧
    (upsdrv_updateinfo inp).flag = (cycleSD inp).flag ∧
    (upsdrv_updateinfo inp).alarms = alarmDecode (mrirBuf 4 inp.alarmRead) ∧
    (upsdrv_updateinfo inp).meas = some (measDecode (mrirBuf 48 inp.measRead)) := by
  unfold upsdrv_updateinfo cycleLbThr cycleSD statusReg0
  rw [hc]
  simp [h0]

/-- The two low-battery paths cannot both hold: the bit-15 path requires
`battery_charge_low == -1`, and no register value is below `-1`. -/
lemma lb_paths_exclusive (reg0 : Nat) (old bcl : Int) (m4 : Nat) :
    ¬((statusDecode reg0 old bcl).lb = true ∧
      ((statusDecode reg0 old bcl).flag == 1 && decide ((m4 : Int) < bcl)) = true) := by
  rintro ⟨h1, h2⟩
  simp only [statusDecode] at h1 h2
  simp only [Bool.and_eq_true, beq_iff_eq] at h1 h2
  rw [h1.2] at h2
  have h3 := of_decide_eq_true h2.2
  omega

end Socomec

namespace Socomec

/-! ## Claim theorems -/

/-- Claim C1: with status-register-0 bit 5 (on battery) and bit 10
(battery test in progress) both set, the status decode sets OL, does not
set OB, and leaves `DISCHARGING_FLAG` unchanged; with bit 5 set and bit 10
clear it sets OB and sets `DISCHARGING_FLAG` to 1 (discharging). -/
theorem C1_battery_test_overrides_on_battery (reg0 : Nat) (oldFlag bcl : Int)
    (h5 : checkBit reg0 5 = true) :
    (checkBit reg0 10 = true →
      (statusDecode reg0 oldFlag bcl).ol = true ∧
      (statusDecode reg0 oldFlag bcl).ob = false ∧
      (statusDecode reg0 oldFlag bcl).flag = oldFlag) ∧
    (checkBit reg0 10 = false →
      (statusDecode reg0 oldFlag bcl).ob = true ∧
      (statusDecode reg0 oldFlag bcl).flag = 1) := by
  constructor <;> intro h10 <;> simp [statusDecode, h5, h10]

/-- Witness for C1 at status words 0x420 (bits 5 and 10) and 0x20 (bit 5 only). -/
theorem C1_witness :
    (statusDecode 1056 7 20).ol = true ∧ (statusDecode 1056 7 20).ob = false ∧
    (statusDecode 1056 7 20).flag = 7 ∧
    (statusDecode 32 7 20).ob = true ∧ (statusDecode 32 7 20).flag = 1 := by
  have h1 := C1_battery_test_overrides_on_battery 1056 7 20 (by decide)
  have h2 := C1_battery_test_overrides_on_battery 32 7 20 (by decide)
  obtain ⟨a, b, c⟩ := h1.1 (by decide)
  obtain ⟨d, e⟩ := h2.2 (by decide)
  exact ⟨a, b, c, d, e⟩

/-- Claim C3: `load.off.delay`, `shutdown.return` and `upsdrv_shutdown`
all write the same 5-register block at 0x1580, whose first four registers
are the big-endian byte split of the delay and the standby minutes and
whose fifth is the schedule type; delay 30, standby 1, type 4 encodes as
`[0x00, 0x1E, 0x00, 0x01, 0x04]`. -/
theorem C3_shutdown_schedule_encoding :
    (∀ st : ScheduleState, ∀ wAck : Int,
      (instcmd "load.off.delay" st wAck).snd = some ⟨0x1580, shutdownBlock st⟩) ∧
    (∀ st : ScheduleState, ∀ wAck : Int,
      (instcmd "shutdown.return" st wAck).snd = some ⟨0x1580, shutdownBlock st⟩) ∧
    (∀ st : ScheduleState, ∀ wAck : Int,
      (upsdrv_shutdown st wAck).snd = ⟨0x1580, shutdownBlock st⟩) ∧
    (∀ d m t : Nat, d < 65536 → m < 65536 →
      shutdownBlock ⟨d, m, t⟩ = [d / 256, d % 256, m / 256, m % 256, t]) ∧
    shutdownBlock ⟨30, 1, 4⟩ = [0x00, 0x1E, 0x00, 0x01, 0x04] := by
  refine ⟨fun st wAck => rfl, fun st wAck => rfl, fun st wAck => rfl, ?_, by decide⟩
  intro d m t hd hm
  simp only [shutdownBlock, msb_byte d hd, msb_byte m hm, lsb_byte]

/-- Witness for C3 at delay 300 = 0x012C, standby 2, type 1. -/
theorem C3_witness :
    (instcmd "load.off.delay" ⟨300, 2, 1⟩ 5).snd =
      some ⟨0x1580, shutdownBlock ⟨300, 2, 1⟩⟩ ∧
    shutdownBlock ⟨300, 2, 1⟩ = [300 / 256, 300 % 256, 2 / 256, 2 % 256, 1] := by
  exact ⟨C3_shutdown_schedule_encoding.1 ⟨300, 2, 1⟩ 5,
    C3_shutdown_schedule_encoding.2.2.2.1 300 2 1 (by decide) (by decide)⟩

/-- Claim C4 (code bug): a 5-register schedule write acknowledged with 5
(the libmodbus success value for a 5-register `modbus_write_registers`)
is reported as `STAT_INSTCMD_FAILED`, because both schedule-command
branches compare the write result to 1 rather than 5; only the impossible
acknowledgement 1 would be reported handled. -/
theorem C4_schedule_write_ack_bug :
    (instcmd "load.off.delay" ⟨30, 1, 4⟩ 5).fst = CmdResult.failed ∧
    (instcmd "shutdown.return" ⟨30, 1, 4⟩ 5).fst = CmdResult.failed ∧
    (instcmd "load.off.delay" ⟨30, 1, 4⟩ 5).snd =
      some ⟨0x1580, [0x00, 0x1E, 0x00, 0x01, 0x04]⟩ ∧
    (instcmd "load.off.delay" ⟨30, 1, 4⟩ 1).fst = CmdResult.handled ∧
    (instcmd "shutdown.return" ⟨30, 1, 4⟩ 1).fst = CmdResult.handled := by
  decide

/-- Claim C2 counterexample: the two low-battery paths can never both
fire in one cycle — the bit-15 path needs the threshold disabled
(`battery_charge_low == -1`) and then no charge register is below the
threshold. -/
theorem C2_counterexample_lb_paths_exclusive :
    ¬ ∃ inp : CycleInput, (upsdrv_updateinfo inp).lbBit = true ∧
      (upsdrv_updateinfo inp).lbThr = true := by
  rintro ⟨inp, h1, h2⟩
  rcases hc : inp.configRead with _ | cfg
  · unfold upsdrv_updateinfo at h1
    rw [hc] at h1
    simp at h1
  · by_cases h0 : regAt cfg 0 = 0
    · unfold upsdrv_updateinfo at h1
      rw [hc] at h1
      simp [h0] at h1
    · obtain ⟨-, -, -, -, -, hbit, hthr, -⟩ := updateinfo_ok inp cfg hc h0
      rw [hbit] at h1
      rw [hthr] at h2
      exact lb_paths_exclusive (statusReg0 inp) inp.oldFlag inp.battery_charge_low
        (regAt (mrirBuf 48 inp.measRead) 4) ⟨h1, h2⟩

/-- Claim C2 (amended): in a committed cycle the threshold
path asserts LB whenever the discharging flag is 1 and the charge
register is below the threshold, with no early return shielding it from
the bit-15 path; the two paths are nevertheless mutually exclusive,
since the bit-15 path requires the threshold disabled (-1). -/
theorem C2_threshold_lb_path (inp : CycleInput) (cfg : List Nat)
    (hc : inp.configRead = some cfg) (h0 : ¬(regAt cfg 0 = 0)) :
    ((upsdrv_updateinfo inp).flag = 1 →
      ((regAt (mrirBuf 48 inp.measRead) 4 : Int) < inp.battery_charge_low) →
      (upsdrv_updateinfo inp).lbThr = true ∧ (upsdrv_updateinfo inp).lb = true) ∧
    ¬((upsdrv_updateinfo inp).lbBit = true ∧ (upsdrv_updateinfo inp).lbThr = true) := by
  obtain ⟨-, -, -, -, -, hbit, hthr, hlb, hflag, -, -⟩ := updateinfo_ok inp cfg hc h0
  constructor
  · intro hf hlt
    rw [hflag] at hf
    have ht : cycleLbThr inp = true := by
      unfold cycleLbThr
      rw [hf]
      simp [hlt]
    rw [hthr, hlb, ht]
    simp
  · rintro ⟨h1, h2⟩
    rw [hbit] at h1
    rw [hthr] at h2
    exact lb_paths_exclusive (statusReg0 inp) inp.oldFlag inp.battery_charge_low
      (regAt (mrirBuf 48 inp.measRead) 4) ⟨h1, h2⟩

/-- Witness for C2: discharging, charge register 15, threshold 20. -/
theorem C2_witness :
    (upsdrv_updateinfo
      { ups_model := 130, configRead := some (230 :: List.replicate 31 0),
        timeRead := none, statusRead := some [32, 0, 0, 0, 0, 0],
        alarmRead := some [0, 0, 0, 0], measRead := some (List.replicate 48 15),
        oldFlag := -1, battery_charge_low := 20 }).lb = true := by
  exact ((C2_threshold_lb_path
    { ups_model := 130, configRead := some (230 :: List.replicate 31 0),
      timeRead := none, statusRead := some [32, 0, 0, 0, 0, 0],
      alarmRead := some [0, 0, 0, 0], measRead := some (List.replicate 48 15),
      oldFlag := -1, battery_charge_low := 20 }
    (230 :: List.replicate 31 0) rfl (by decide)).1 (by decide) (by decide)).2

/-- Claim C5 counterexample: a failed configuration-window read (0x10E0)
aborts the cycle with stale data even though every other window read
succeeded, so not every per-cycle window failure is non-fatal. -/
theorem C5_counterexample_config_read_aborts :
    (upsdrv_updateinfo
      { ups_model := 130, configRead := none,
        timeRead := some [0, 0, 0, 0], statusRead := some [1, 0, 0, 0, 0, 0],
        alarmRead := some [0, 0, 0, 0], measRead := some (List.replicate 48 0),
        oldFlag := 0, battery_charge_low := 20 }).stale = true ∧
    (upsdrv_updateinfo
      { ups_model := 130, configRead := none,
        timeRead := some [0, 0, 0, 0], statusRead := some [1, 0, 0, 0, 0, 0],
        alarmRead := some [0, 0, 0, 0], measRead := some (List.replicate 48 0),
        oldFlag := 0, battery_charge_low := 20 }).committed = false := by
  decide

/-- Claim C5 (amended): failed status, alarm and measurement reads are
non-fatal — the cycle still commits, with the zero-filled buffer yielding
no alarms and no on-battery or bit-15 low-battery assertion — while a
failed configuration read (or configuration register 0 equal to zero)
aborts the cycle as stale, and the one-time identity read is fatal on
failure. -/
theorem C5_window_failure_policy (inp : CycleInput) (cfg : List Nat)
    (hc : inp.configRead = some cfg) (h0 : ¬(regAt cfg 0 = 0)) :
    ((upsdrv_updateinfo inp).committed = true ∧
     (upsdrv_updateinfo inp).stale = false) ∧
    (inp.alarmRead = none → (upsdrv_updateinfo inp).alarms = []) ∧
    (inp.statusRead = none →
      (upsdrv_updateinfo inp).ob = false ∧ (upsdrv_updateinfo inp).lbBit = false) ∧
    (∀ inp2 : CycleInput, inp2.configRead = none →
      (upsdrv_updateinfo inp2).stale = true ∧
      (upsdrv_updateinfo inp2).committed = false) ∧
    upsdrv_initinfo none = none ∧
    (∀ idRegs : List Nat, upsdrv_initinfo (some idRegs) ≠ none) := by
  obtain ⟨hs, hcm, -, -, hob, hbit, -, -, -, halarms, -⟩ := updateinfo_ok inp cfg hc h0
  refine ⟨⟨hcm, hs⟩, ?_, ?_, ?_, rfl, ?_⟩
  · intro hmA
    rw [halarms, hmA]
    decide
  · intro hmS
    rw [hob, hbit]
    unfold cycleSD statusReg0
    rw [hmS]
    have hz : regAt (mrirBuf (if inp.ups_model == 30 then 4 else 6) none) 0 = 0 := by
      unfold mrirBuf
      simp [regAt_replicate_zero]
    rw [hz]
    simp [statusDecode, checkBit]
  · intro inp2 h2
    unfold upsdrv_updateinfo
    rw [h2]
    exact ⟨rfl, rfl⟩
  · intro idRegs
    simp [upsdrv_initinfo]

/-- Witness for C5: every degradable window read failed, the cycle still
committed. -/
theorem C5_witness :
    (upsdrv_updateinfo
      { ups_model := 30, configRead := some (230 :: List.replicate 31 0),
        timeRead := none, statusRead := none, alarmRead := none, measRead := none,
        oldFlag := 1, battery_charge_low := 20 }).committed = true := by
  exact ((C5_window_failure_policy
    { ups_model := 30, configRead := some (230 :: List.replicate 31 0),
      timeRead := none, statusRead := none, alarmRead := none, measRead := none,
      oldFlag := 1, battery_charge_low := 20 }
    (230 :: List.replicate 31 0) rfl (by decide)).1).1

/-- Claim C6 counterexample: `shutdown.stayoff` writes the single control
register 0x05 at 0x15B0, not the 5-register schedule block at 0x1580. -/
theorem C6_counterexample_stayoff_single_register :
    (instcmd "shutdown.stayoff" ⟨30, 1, 4⟩ 1).snd = some ⟨0x15B0, [0x05]⟩ ∧
    (instcmd "shutdown.stayoff" ⟨30, 1, 4⟩ 1).snd ≠
      some ⟨0x1580, shutdownBlock ⟨30, 1, 4⟩⟩ := by
  decide

/-- Claim C6 (amended): unlike `load.off.delay` and `shutdown.return`,
the `shutdown.stayoff` command performs a single-register control write
(value 0x05, standby enable) at 0x15B0, handled iff exactly one register
is acknowledged. -/
theorem C6_stayoff_control_write (st : ScheduleState) (wAck : Int) :
    (instcmd "shutdown.stayoff" st wAck).snd = some ⟨0x15B0, [0x05]⟩ ∧
    ((instcmd "shutdown.stayoff" st wAck).fst = CmdResult.handled ↔ wAck = 1) := by
  have h : instcmd "shutdown.stayoff" st wAck = controlWrite 0x05 wAck := rfl
  rw [h]
  unfold controlWrite
  refine ⟨rfl, ?_⟩
  by_cases hw : wAck = 1
  · subst hw
    simp
  · simp [hw]

/-- Claim C7: the stay-off duration update is accepted iff the value in
seconds is divisible by 60, storing value/60 minutes; otherwise it is a
handled failure and the state is unchanged; 120 stores 2, 125 is
rejected. -/
theorem C7_stayoff_duration_divisibility (v sinkAck : Int) (st : SetvarState) :
    (v % 60 = 0 →
      (setvar "ups.delay.start" v sinkAck st).snd =
        { st with sch_min_off := ((v / 60) % 65536).toNat } ∧
      (sinkAck = 1 →
        (setvar "ups.delay.start" v sinkAck st).fst = SetResult.handled)) ∧
    (v % 60 ≠ 0 →
      (setvar "ups.delay.start" v sinkAck st).fst = SetResult.failed ∧
      (setvar "ups.delay.start" v sinkAck st).snd = st) ∧
    (setvar "ups.delay.start" 120 sinkAck st).snd.sch_min_off = 2 ∧
    (setvar "ups.delay.start" 125 sinkAck st).fst = SetResult.failed ∧
    (setvar "ups.delay.start" 125 sinkAck st).snd = st := by
  have h : setvar "ups.delay.start" v sinkAck st =
      (if v % 60 == 0 then
        (if sinkAck != 1 then SetResult.failed else SetResult.handled,
         { st with sch_min_off := ((v / 60) % 65536).toNat })
       else (SetResult.failed, st)) := rfl
  refine ⟨?_, ?_, rfl, rfl, rfl⟩
  · intro hv
    have hb : (v % 60 == 0) = true := by simpa using hv
    rw [h]
    simp only [hb, if_true]
    refine ⟨trivial, ?_⟩
    intro hs
    subst hs
    simp
  · intro hv
    have hb : (v % 60 == 0) = false := by simpa using hv
    rw [h]
    simp only [hb, Bool.false_eq_true, if_false]
    exact ⟨trivial, trivial⟩

/-- Witness for C7 at 120 and 125 seconds. -/
theorem C7_witness :
    (setvar "ups.delay.start" 120 1 ⟨20, 30, 1⟩).fst = SetResult.handled ∧
    (setvar "ups.delay.start" 120 1 ⟨20, 30, 1⟩).snd.sch_min_off = 2 ∧
    (setvar "ups.delay.start" 125 1 ⟨20, 30, 1⟩).fst = SetResult.failed := by
  have h1 := C7_stayoff_duration_divisibility 120 1 ⟨20, 30, 1⟩
  have h2 := C7_stayoff_duration_divisibility 125 1 ⟨20, 30, 1⟩
  exact ⟨(h1.1 (by decide)).2 rfl, h1.2.2.1, (h2.2.1 (by decide)).1⟩

/-- Claim C8: the discharging flag is written only by rule 1 (set to 0)
and rule 4 (set to 1) of the status decode; when the status read fails
(zero-filled window) the committed cycle keeps the previous flag value;
and the same-cycle threshold low-battery comparison reads the flag value
the cycle just produced. -/
theorem C8_discharging_flag_persistence :
    (∀ reg0 : Nat, ∀ old bcl : Int,
      (statusDecode reg0 old bcl).flag =
        (if checkBit reg0 0 && !checkBit reg0 5 then 0
         else if !checkBit reg0 10 && checkBit reg0 5 then 1 else old)) ∧
    (∀ inp : CycleInput, ∀ cfg : List Nat, inp.configRead = some cfg →
      ¬(regAt cfg 0 = 0) → inp.statusRead = none →
      (upsdrv_updateinfo inp).flag = inp.oldFlag) ∧
    (∀ inp : CycleInput, ∀ cfg : List Nat, inp.configRead = some cfg →
      ¬(regAt cfg 0 = 0) →
      (upsdrv_updateinfo inp).lbThr =
        ((upsdrv_updateinfo inp).flag == 1 &&
          decide ((regAt (mrirBuf 48 inp.measRead) 4 : Int) <
            inp.battery_charge_low))) := by
  refine ⟨?_, ?_, ?_⟩
  · intro reg0 old bcl
    cases h0 : checkBit reg0 0 <;> cases h5 : checkBit reg0 5 <;>
      cases h10 : checkBit reg0 10 <;> simp [statusDecode, h0, h5, h10]
  · intro inp cfg hc h0 hs
    obtain ⟨-, -, -, -, -, -, -, -, hflag, -, -⟩ := updateinfo_ok inp cfg hc h0
    rw [hflag]
    unfold cycleSD statusReg0
    rw [hs]
    have hz : regAt (mrirBuf (if inp.ups_model == 30 then 4 else 6) none) 0 = 0 := by
      unfold mrirBuf
      simp [regAt_replicate_zero]
    rw [hz]
    simp [statusDecode, checkBit]
  · intro inp cfg hc h0
    obtain ⟨-, -, -, -, -, -, hthr, -, hflag, -, -⟩ := updateinfo_ok inp cfg hc h0
    rw [hthr, hflag]
    rfl

/-- Witness for C8: status read failed, previous flag 1 carries over. -/
theorem C8_witness :
    (upsdrv_updateinfo
      { ups_model := 130, configRead := some (230 :: List.replicate 31 0),
        timeRead := none, statusRead := none, alarmRead := some [0, 0, 0, 0],
        measRead := some (List.replicate 48 0), oldFlag := 1,
        battery_charge_low := 20 }).flag = 1 := by
  exact C8_discharging_flag_persistence.2.1
    { ups_model := 130, configRead := some (230 :: List.replicate 31 0),
      timeRead := none, statusRead := none, alarmRead := some [0, 0, 0, 0],
      measRead := some (List.replicate 48 0), oldFlag := 1,
      battery_charge_low := 20 }
    (230 :: List.replicate 31 0) rfl (by decide) rfl

/-- `sentinelGuard v` publishes `v` exactly when `v` is not the 0xFFFF
sentinel. -/
lemma sentinelGuard_some_iff (v : Nat) : sentinelGuard v = some v ↔ v ≠ 0xFFFF := by
  unfold sentinelGuard
  by_cases hv : v = 0xFFFF <;> simp [hv]

lemma sentinelGuard_none (v : Nat) (hv : v = 0xFFFF) : sentinelGuard v = none := by
  unfold sentinelGuard
  simp [hv]

/-- Claim C9: the measurement decode selects the single-phase branch iff
registers 1 and 2 are both 0xFFFF; every other combination selects the
three-phase branch, where load and phase voltages are published
unconditionally while the per-line output currents stay
sentinel-guarded. -/
theorem C9_phase_detection_and_guards (t : List Nat) :
    ((measDecode t).phases = 1 ↔ (regAt t 1 = 0xFFFF ∧ regAt t 2 = 0xFFFF)) ∧
    ((measDecode t).phases = 3 ↔ ¬(regAt t 1 = 0xFFFF ∧ regAt t 2 = 0xFFFF)) ∧
    (¬(regAt t 1 = 0xFFFF ∧ regAt t 2 = 0xFFFF) →
      (measDecode t).upsLoad = some (regAt t 3) ∧
      (measDecode t).l1Load = some (regAt t 0) ∧
      (measDecode t).l2Load = some (regAt t 1) ∧
      (measDecode t).l3Load = some (regAt t 2) ∧
      (measDecode t).bypassVoltageL1 = some (regAt t 6) ∧
      (measDecode t).bypassVoltageL2 = some (regAt t 7) ∧
      (measDecode t).bypassVoltageL3 = some (regAt t 8) ∧
      (measDecode t).outputVoltageL1 = some (regAt t 9) ∧
      (measDecode t).outputVoltageL2 = some (regAt t 10) ∧
      (measDecode t).outputVoltageL3 = some (regAt t 11) ∧
      ((measDecode t).outputCurrentL1 = some (regAt t 15) ↔ regAt t 15 ≠ 0xFFFF) ∧
      ((measDecode t).outputCurrentL2 = some (regAt t 16) ↔ regAt t 16 ≠ 0xFFFF) ∧
      ((measDecode t).outputCurrentL3 = some (regAt t 17) ↔ regAt t 17 ≠ 0xFFFF) ∧
      (regAt t 15 = 0xFFFF → (measDecode t).outputCurrentL1 = none)) := by
  by_cases h : regAt t 1 = 0xFFFF ∧ regAt t 2 = 0xFFFF
  · refine ⟨?_, ?_, fun hn => absurd h hn⟩ <;> simp [measDecode, h.1, h.2, h]
  · have hb : (regAt t 1 == 0xFFFF && regAt t 2 == 0xFFFF) = false := by
      rcases not_and_or.mp h with h1 | h1 <;> simp [h1]
    refine ⟨?_, ?_, fun hn => ?_⟩
    · simp [measDecode, hb, h]
    · simp [measDecode, hb, h]
    · have hm15 := sentinelGuard_some_iff (regAt t 15)
      have hm16 := sentinelGuard_some_iff (regAt t 16)
      have hm17 := sentinelGuard_some_iff (regAt t 17)
      simp only [measDecode, hb, Bool.false_eq_true, if_false]
      exact ⟨trivial, trivial, trivial, trivial, trivial, trivial, trivial,
        trivial, trivial, trivial, hm15, hm16, hm17,
        fun hx => sentinelGuard_none _ hx⟩

/-- Witness for C9 on a buffer of 48 registers all equal to 7. -/
theorem C9_witness :
    (measDecode (List.replicate 48 7)).phases = 3 ∧
    (measDecode (List.replicate 48 7)).upsLoad = some 7 ∧
    (measDecode (List.replicate 48 7)).outputCurrentL1 = some 7 := by
  have hn : ¬(regAt (List.replicate 48 7) 1 = 0xFFFF ∧
      regAt (List.replicate 48 7) 2 = 0xFFFF) := by decide
  obtain ⟨-, h2, h3⟩ := C9_phase_detection_and_guards (List.replicate 48 7)
  obtain ⟨hu, -, -, -, -, -, -, -, -, -, hc1, -, -, -⟩ := h3 hn
  exact ⟨h2.mpr hn, hu, hc1.mpr (by decide)⟩

/-- Claim C10: with the measurement read failed (zero-filled window), a
committed cycle whose discharging flag is 1 and whose configured
threshold is positive asserts threshold low-battery from the zero-valued
charge register. -/
theorem C10_zero_filled_measurement_lb (inp : CycleInput) (cfg : List Nat)
    (hc : inp.configRead = some cfg) (h0 : ¬(regAt cfg 0 = 0))
    (hm : inp.measRead = none)
    (hf : (upsdrv_updateinfo inp).flag = 1)
    (hb : 0 < inp.battery_charge_low) :
    (upsdrv_updateinfo inp).lbThr = true ∧ (upsdrv_updateinfo inp).lb = true := by
  obtain ⟨-, -, -, -, -, -, hthr, hlb, hflag, -, -⟩ := updateinfo_ok inp cfg hc h0
  rw [hflag] at hf
  have hz : regAt (mrirBuf 48 inp.measRead) 4 = 0 := by
    rw [hm]
    exact regAt_replicate_zero 48 4
  have ht : cycleLbThr inp = true := by
    unfold cycleLbThr
    rw [hf, hz]
    simpa using hb
  rw [hthr, hlb, ht]
  simp

/-- Witness for C10: discharging cycle, measurement read failed,
threshold 20. -/
theorem C10_witness :
    (upsdrv_updateinfo
      { ups_model := 130, configRead := some (230 :: List.replicate 31 0),
        timeRead := none, statusRead := some [32, 0, 0, 0, 0, 0],
        alarmRead := some [0, 0, 0, 0], measRead := none,
        oldFlag := -1, battery_charge_low := 20 }).lb = true := by
  exact (C10_zero_filled_measurement_lb
    { ups_model := 130, configRead := some (230 :: List.replicate 31 0),
      timeRead := none, statusRead := some [32, 0, 0, 0, 0, 0],
      alarmRead := some [0, 0, 0, 0], measRead := none,
      oldFlag := -1, battery_charge_low := 20 }
    (230 :: List.replicate 31 0) rfl (by decide) rfl (by decide) (by decide)).2

end Socomec
